import Mathlib

/-!
Shallow embedding of the discovery-data pipeline of the
SAXTech-Merger-Planner repository: the chat-process Azure Function
(completion gateway with deployment fallback, discovery extraction and
merge, completion-criteria evaluation, session turn orchestration) and
the discovery-update Azure Function.  JavaScript objects are modelled as
association lists of string keys, JavaScript values as a small inductive
type, and the two external collaborators (the Cosmos document store and
the OpenAI completion client, including the platform JSON parser) as
explicit parameters of the embedded handlers.
-/

set_option autoImplicit false

/-- Whether the character list starts with the given needle
(embedding of the prefix test underlying String.prototype.includes). -/
def listStartsWith : List Char → List Char → Bool
  | _, [] => true
  | [], _ :: _ => false
  | a :: as, b :: bs => a == b && listStartsWith as bs

/-- Whether the needle occurs as a contiguous sublist of the haystack. -/
def listContainsSub (needle : List Char) : List Char → Bool
  | [] => needle.isEmpty
  | a :: rest => listStartsWith (a :: rest) needle || listContainsSub needle rest

/-- Embedding of JavaScript String.prototype.includes(needle). -/
def strIncludes (hay needle : String) : Bool :=
  listContainsSub needle.data hay.data

/-- Embedding of String.prototype.toLowerCase (ASCII range, which covers
every keyword the handlers compare against). -/
def jsToLower (s : String) : String :=
  String.mk (s.data.map Char.toLower)

/-- JavaScript values as produced by JSON.parse and stored in session
documents.  Numbers are modelled as integers; no claim under scrutiny
depends on fractional or NaN behaviour. -/
inductive JSValue where
  | jnull
  | jbool (b : Bool)
  | jnum (n : Int)
  | jstr (s : String)
  | jarr (elems : List JSValue)
  | jobj (fields : List (String × JSValue))

/-- JavaScript truthiness of a value. -/
def truthy : JSValue → Bool
  | .jnull => false
  | .jbool b => b
  | .jnum n => n != 0
  | .jstr s => s != ""
  | .jarr _ => true
  | .jobj _ => true

/-- Own enumerable string-keyed properties of a value, in property order:
what both Object.keys and object spread enumerate. -/
def jsOwnProps : JSValue → List (String × JSValue)
  | .jobj fields => fields
  | .jarr elems => elems.enum.map (fun p => (toString p.1, p.2))
  | .jstr s => s.data.enum.map (fun p => (toString p.1, JSValue.jstr (String.mk [p.2])))
  | _ => []

/-- Keys of Object.keys(v). -/
def jsKeys (v : JSValue) : List String :=
  (jsOwnProps v).map Prod.fst

/-- Property read on an association-list object: first binding wins,
as in a JavaScript object where keys are unique. -/
def objLookup : List (String × JSValue) → String → Option JSValue
  | [], _ => none
  | (k, v) :: rest, key => if k = key then some v else objLookup rest key

/-- Property write on an association-list object: overwrite in place if
the key exists (keeping its position), else append, as in JavaScript. -/
def objInsert : List (String × JSValue) → String → JSValue → List (String × JSValue)
  | [], key, val => [(key, val)]
  | (k, v) :: rest, key, val =>
      if k = key then (k, val) :: rest else (k, v) :: objInsert rest key val

/-- Property read behind optional chaining: v?.[field]. -/
def jsGet (v : JSValue) (k : String) : Option JSValue :=
  objLookup (jsOwnProps v) k

/-- Embedding of the object spread at chat-process/index.js lines
149-152: start from the existing fields and write every new field over
them in order, so every key of the update overwrites the same key of the
base and all other base keys survive. -/
def mergeFields (base update : List (String × JSValue)) : List (String × JSValue) :=
  update.foldl (fun acc kv => objInsert acc kv.1 kv.2) base

/-- Per-category completion criteria from the optional configuration
document: completionCriteria at chat-process/index.js line 160. -/
structure CompletionCriteria where
  requiredFields : Option (List String)
  minFacts : Option Int

/-- JavaScript completionCriteria.minFacts || 3 (line 174): a missing or
zero (falsy) minFacts yields the default threshold 3. -/
def minFactsOrDefault : Option Int → Int
  | none => 3
  | some n => if n = 0 then 3 else n

/-- Embedding of lines 161-165: the lowercase user message contains one
of the four completion keywords. -/
def hasCompletionSignal (message : String) : Bool :=
  let normalizedMessage := jsToLower message
  strIncludes normalizedMessage "done" ||
    strIncludes normalizedMessage "complete" ||
    strIncludes normalizedMessage "finished" ||
    strIncludes normalizedMessage "next"

/-- Embedding of the completion check at chat-process/index.js lines
160-182.  catFacts is session.discoveryData[category] as read from the
session (none when the property is absent). -/
def evaluateCompletion (criteria : Option CompletionCriteria)
    (catFacts : Option JSValue) (message : String) : Bool :=
  let signal := hasCompletionSignal message
  match criteria with
  | some cc =>
      let factCount := (jsKeys (catFacts.getD (JSValue.jobj []))).length
      let hasRequiredFields :=
        match cc.requiredFields with
        | some fields =>
            fields.all fun f => truthy ((catFacts.bind fun v => jsGet v f).getD JSValue.jnull)
        | none => true
      signal && decide (minFactsOrDefault cc.minFacts ≤ (factCount : Int)) && hasRequiredFields
  | none => signal

/-- Embedding of getChatCompletionsWithFallback (chat-process/index.js
lines 28-47).  The OpenAI client is a function from deployment name to
outcome (the error carries the message inspected by the catch block);
an unconfigured deployment is the empty string, JavaScript-falsy like
the undefined it stands for.  Returned alongside the outcome is the list
of deployments called, in order. -/
def getChatCompletionsWithFallback {α : Type}
    (client : String → Except String α)
    (primaryDeployment fallbackDeployment : String) :
    Except String α × List String :=
  let attempt : Except String α × List String :=
    if primaryDeployment = "" ∧ fallbackDeployment = "" then
      (Except.error "No OpenAI deployment configured. Set aiModel or AZURE_OPENAI_DEPLOYMENT.", [])
    else
      let deploymentToUse :=
        if primaryDeployment ≠ "" then primaryDeployment else fallbackDeployment
      (client deploymentToUse, [deploymentToUse])
  match attempt with
  | (Except.ok r, calls) => (Except.ok r, calls)
  | (Except.error msg, calls) =>
      let message := jsToLower msg
      let missingDeployment :=
        strIncludes message "deployment" && strIncludes message "does not exist"
      if missingDeployment && fallbackDeployment ≠ "" && primaryDeployment ≠ "" &&
          fallbackDeployment ≠ primaryDeployment then
        (client fallbackDeployment, calls ++ [fallbackDeployment])
      else
        (Except.error msg, calls)

/-- One entry of session.messages. -/
structure ChatMessage where
  role : String
  content : String
  timestamp : String

/-- A session document as stored in the Sessions container.  messages
and discoveryData are optional because legacy or partially initialized
sessions may lack them (chat-process/index.js lines 85-91). -/
structure StoredSession where
  id : String
  messages : Option (List ChatMessage)
  discoveryData : Option (List (String × JSValue))

/-- One category definition of the optional configuration document. -/
structure CategoryConfig where
  id : String
  extractionPrompt : Option String
  completionCriteria : Option CompletionCriteria

/-- The optional configuration document loaded by loadConfig (lines
13-23); loadConfig returns null on any read failure, folded here into
the enclosing Option. -/
structure AppConfig where
  categories : Option (List CategoryConfig)

/-- Request body of the chat-process endpoint.  The conversation context
only feeds the prompts sent to the abstracted completion client, so it
is not modelled separately. -/
structure ChatRequest where
  sessionId : String
  message : String
  category : String

/-- External collaborators of one chat-process turn: the Sessions
container read, the loaded configuration, the outcomes of the two
completion calls (assistant reply and extraction, each already routed
through the deployment fallback), the platform JSON parser (none models
a JSON.parse throw), and the two Date() timestamps taken at the message
appends. -/
structure TurnEnv where
  sessions : String → Option StoredSession
  config : Option AppConfig
  mainCompletion : Except String String
  extractionCompletion : Except String String
  jsonParse : String → Option JSValue
  tsUser : String
  tsAssistant : String

/-- Observable outcome of one chat-process invocation: the HTTP status,
the response body fields, and the list of session documents written by
container.item(...).replace, in order. -/
structure TurnResult where
  status : Nat
  response : Option String
  discoveryData : Option JSValue
  categoryComplete : Option Bool
  errorDetails : Option String
  writes : List StoredSession

/-- Embedding of the extraction try block (chat-process/index.js lines
132-157): returns the discoveryData response field and the updated
discoveryData mapping.  A failed completion call or a JSON.parse throw
is caught and contributes nothing; a parsed value that is falsy or has
no own keys is skipped by the guard at line 147. -/
def extractionStep (env : TurnEnv) (category : String)
    (dd0 : List (String × JSValue)) :
    Option JSValue × List (String × JSValue) :=
  match env.extractionCompletion with
  | Except.error _ => (none, dd0)
  | Except.ok content =>
      match env.jsonParse content with
      | none => (none, dd0)
      | some extracted =>
          if truthy extracted && (jsKeys extracted).length > 0 then
            let merged := JSValue.jobj
              (mergeFields (jsOwnProps ((objLookup dd0 category).getD (JSValue.jobj [])))
                (jsOwnProps extracted))
            (some merged, objInsert dd0 category merged)
          else
            (none, dd0)

/-- Embedding of the chat-process handler (chat-process/index.js lines
49-203).  A missing session surfaces as the TypeError thrown when the
undefined resource is dereferenced at line 86, caught by the outer
handler as a 500 with details; a failed assistant-reply completion is
likewise caught before any write.  The single replace at line 184 is the
only write. -/
def processTurn (env : TurnEnv) (req : ChatRequest) : TurnResult :=
  let categoryConfig :=
    (env.config.bind AppConfig.categories).bind (List.find? fun c => c.id == req.category)
  match env.sessions req.sessionId with
  | none =>
      { status := 500, response := none, discoveryData := none, categoryComplete := none,
        errorDetails := some "Cannot read properties of undefined", writes := [] }
  | some session =>
      match env.mainCompletion with
      | Except.error e =>
          { status := 500, response := none, discoveryData := none, categoryComplete := none,
            errorDetails := some e, writes := [] }
      | Except.ok response =>
          let messages1 := session.messages.getD [] ++
            [{ role := "user", content := req.message, timestamp := env.tsUser },
             { role := "assistant", content := response, timestamp := env.tsAssistant }]
          let dd0 := session.discoveryData.getD []
          let ex := extractionStep env req.category dd0
          let categoryComplete :=
            evaluateCompletion (categoryConfig.bind CategoryConfig.completionCriteria)
              (objLookup ex.2 req.category) req.message
          { status := 200, response := some response, discoveryData := ex.1,
            categoryComplete := some categoryComplete, errorDetails := none,
            writes := [{ id := session.id, messages := some messages1,
                         discoveryData := some ex.2 }] }

/-- JavaScript typeof v === "object" (true for objects, arrays and
null; the null case is unreachable after the preceding falsiness
check). -/
def typeofIsObject : JSValue → Bool
  | .jobj _ => true
  | .jarr _ => true
  | .jnull => true
  | _ => false

/-- External collaborators of the discovery-update handler: the Cosmos
connection settings (empty string models a missing environment
variable) and the Sessions container read. -/
structure UpdateEnv where
  cosmosEndpoint : String
  cosmosKey : String
  sessions : String → Option StoredSession

/-- Request body of the discovery-update endpoint; each field is
optional because the handler validates presence itself. -/
structure UpdateRequest where
  sessionId : String
  category : String
  data : Option JSValue

/-- Observable outcome of one discovery-update invocation. -/
structure UpdateResult where
  status : Nat
  discoveryData : Option JSValue
  error : Option String
  writes : List StoredSession

/-- Embedding of the discovery-update handler
(discovery-update/index.js lines 3-63): validate configuration and
request, read the session, assign the supplied data wholesale to
session.discoveryData[category] (line 46, no merge), replace the
document and echo the stored category value back. -/
def discoveryUpdate (env : UpdateEnv) (req : UpdateRequest) : UpdateResult :=
  if env.cosmosEndpoint = "" ∨ env.cosmosKey = "" then
    { status := 500, discoveryData := none,
      error := some "Cosmos DB configuration missing", writes := [] }
  else
    let dataValid :=
      match req.data with
      | none => false
      | some v => truthy v && typeofIsObject v
    if req.sessionId = "" ∨ req.category = "" ∨ dataValid = false then
      { status := 400, discoveryData := none,
        error := some "sessionId, category, and data (object) are required", writes := [] }
    else
      match env.sessions req.sessionId with
      | none =>
          { status := 404, discoveryData := none,
            error := some "Session not found", writes := [] }
      | some session =>
          match req.data with
          | none =>
              { status := 400, discoveryData := none,
                error := some "sessionId, category, and data (object) are required", writes := [] }
          | some d =>
              let dd1 := objInsert (session.discoveryData.getD []) req.category d
              { status := 200, discoveryData := objLookup dd1 req.category,
                error := none,
                writes := [{ id := session.id, messages := session.messages,
                             discoveryData := some dd1 }] }

/-- A fresh session document, as session-init creates it. -/
def sampleSession : StoredSession where
  id := "s1"
  messages := some []
  discoveryData := some []

/-- A well-formed chat-process request against sampleSession. -/
def sampleChatRequest : ChatRequest where
  sessionId := "s1"
  message := "hello"
  category := "infrastructure"

/-- A turn environment whose Sessions container is empty, exercising the
missing-session path. -/
def missingSessionEnv : TurnEnv where
  sessions := fun _ => none
  config := none
  mainCompletion := Except.ok "hello back"
  extractionCompletion := Except.ok "not json"
  jsonParse := fun _ => none
  tsUser := "2026-01-01T00:00:00.000Z"
  tsAssistant := "2026-01-01T00:00:01.000Z"

/-- A turn environment where both completion calls succeed and the
extraction reply parses to the empty object. -/
def happyEnv : TurnEnv where
  sessions := fun sid => if sid = "s1" then some sampleSession else none
  config := none
  mainCompletion := Except.ok "assistant reply"
  extractionCompletion := Except.ok "\x7b\x7d"
  jsonParse := fun t => if t = "\x7b\x7d" then some (JSValue.jobj []) else none
  tsUser := "2026-01-01T00:00:00.000Z"
  tsAssistant := "2026-01-01T00:00:01.000Z"

/-- A turn environment whose extraction reply is not valid JSON: the
parser throws (models JSON.parse failing on the model output). -/
def parseFailEnv : TurnEnv where
  sessions := fun sid => if sid = "s1" then some sampleSession else none
  config := none
  mainCompletion := Except.ok "assistant reply"
  extractionCompletion := Except.ok "not json"
  jsonParse := fun _ => none
  tsUser := "2026-01-01T00:00:00.000Z"
  tsAssistant := "2026-01-01T00:00:01.000Z"

/-- A turn environment whose extraction completion call itself fails
(for example an auth failure after the fallback). -/
def extractionErrorEnv : TurnEnv where
  sessions := fun sid => if sid = "s1" then some sampleSession else none
  config := none
  mainCompletion := Except.ok "assistant reply"
  extractionCompletion := Except.error "auth failure"
  jsonParse := fun _ => none
  tsUser := "2026-01-01T00:00:00.000Z"
  tsAssistant := "2026-01-01T00:00:01.000Z"

/-- An update environment holding one session with accumulated
infrastructure facts. -/
def updateEnvWithFacts : UpdateEnv where
  cosmosEndpoint := "https://cosmos.example"
  cosmosKey := "key"
  sessions := fun sid =>
    if sid = "s1" then
      some { id := "s1", messages := some [],
             discoveryData := some [("infrastructure",
               JSValue.jobj [("old_fact", JSValue.jstr "kept before")])] }
    else none

theorem objLookup_objInsert_self (o : List (String × JSValue)) (k : String) (v : JSValue) :
    objLookup (objInsert o k v) k = some v := by
  induction o with
  | nil => simp [objInsert, objLookup]
  | cons kv rest ih =>
      obtain ⟨k1, v1⟩ := kv
      by_cases h : k1 = k
      · simp [objInsert, h, objLookup]
      · simp [objInsert, h, objLookup, ih]

theorem mergeFields_nil (x : List (String × JSValue)) : mergeFields x [] = x := rfl

theorem mergeFields_cons (x : List (String × JSValue)) (kv : String × JSValue)
    (rest : List (String × JSValue)) :
    mergeFields x (kv :: rest) = mergeFields (objInsert x kv.1 kv.2) rest := rfl

theorem objLookup_objInsert_ne (o : List (String × JSValue)) (k k2 : String) (v : JSValue)
    (h : k2 ≠ k) : objLookup (objInsert o k v) k2 = objLookup o k2 := by
  have hk : ¬ (k = k2) := fun e => h e.symm
  induction o with
  | nil => simp [objInsert, objLookup, hk]
  | cons kv rest ih =>
      obtain ⟨k1, v1⟩ := kv
      by_cases h1 : k1 = k
      · subst h1
        simp [objInsert, objLookup, hk]
      · simp [objInsert, h1, objLookup, ih]

theorem objInsert_eq_self (o : List (String × JSValue)) (k : String) (v : JSValue)
    (h : objLookup o k = some v) : objInsert o k v = o := by
  induction o with
  | nil => simp [objLookup] at h
  | cons kv rest ih =>
      obtain ⟨k1, v1⟩ := kv
      by_cases h1 : k1 = k
      · simp only [objLookup, if_pos h1] at h
        obtain rfl : v1 = v := by injection h
        simp [objInsert, h1]
      · simp only [objLookup, if_neg h1] at h
        simp [objInsert, h1, ih h]

theorem objLookup_eq_none_of_not_mem (o : List (String × JSValue)) (k : String) :
    k ∉ o.map Prod.fst → objLookup o k = none := by
  induction o with
  | nil => intro _; rfl
  | cons kv rest ih =>
      obtain ⟨k1, v1⟩ := kv
      intro h
      rw [List.map_cons, List.mem_cons] at h
      push_neg at h
      have hk : ¬ (k1 = k) := fun e => h.1 e.symm
      simp only [objLookup, if_neg hk]
      exact ih h.2

theorem objLookup_mergeFields_of_not_mem (x f : List (String × JSValue)) (k : String) :
    k ∉ f.map Prod.fst → objLookup (mergeFields x f) k = objLookup x k := by
  induction f generalizing x with
  | nil => intro _; rfl
  | cons kv rest ih =>
      obtain ⟨k1, v1⟩ := kv
      intro h
      rw [List.map_cons, List.mem_cons] at h
      push_neg at h
      rw [mergeFields_cons]
      rw [ih (objInsert x k1 v1) h.2]
      exact objLookup_objInsert_ne x k1 k v1 h.1

theorem objLookup_mergeFields_of_lookup (f : List (String × JSValue)) (k : String)
    (v : JSValue) :
    (f.map Prod.fst).Nodup → objLookup f k = some v →
    ∀ x, objLookup (mergeFields x f) k = some v := by
  induction f with
  | nil => intro _ h _; simp [objLookup] at h
  | cons kv rest ih =>
      obtain ⟨k1, v1⟩ := kv
      intro hnd h x
      rw [List.map_cons, List.nodup_cons] at hnd
      rw [mergeFields_cons]
      by_cases h1 : k1 = k
      · subst h1
        simp only [objLookup, if_pos rfl] at h
        obtain rfl : v1 = v := by injection h
        rw [objLookup_mergeFields_of_not_mem (objInsert x k1 v1) rest k1 hnd.1]
        exact objLookup_objInsert_self x k1 v1
      · simp only [objLookup, if_neg h1] at h
        exact ih hnd.2 h (objInsert x k1 v1)

theorem mergeFields_of_lookup_agree (f : List (String × JSValue)) :
    (f.map Prod.fst).Nodup →
    ∀ y, (∀ k v, objLookup f k = some v → objLookup y k = some v) →
    mergeFields y f = y := by
  induction f with
  | nil => intro _ y _; rfl
  | cons kv rest ih =>
      obtain ⟨k1, v1⟩ := kv
      intro hnd y h
      rw [List.map_cons, List.nodup_cons] at hnd
      rw [mergeFields_cons]
      have hy : objLookup y k1 = some v1 := h k1 v1 (by simp [objLookup])
      rw [objInsert_eq_self y k1 v1 hy]
      refine ih hnd.2 y ?_
      intro k v hk
      have h1 : ¬ (k1 = k) := by
        intro he
        subst he
        rw [objLookup_eq_none_of_not_mem rest k1 hnd.1] at hk
        exact Option.noConfusion hk
      refine h k v ?_
      simp only [objLookup, if_neg h1]
      exact hk

theorem mergeFields_idem (x f : List (String × JSValue))
    (hnd : (f.map Prod.fst).Nodup) :
    mergeFields (mergeFields x f) f = mergeFields x f :=
  mergeFields_of_lookup_agree f hnd (mergeFields x f)
    (fun k v h => objLookup_mergeFields_of_lookup f k v hnd h x)

theorem truthy_getD_iff (o : Option JSValue) :
    truthy (o.getD JSValue.jnull) = true ↔ ∃ v, o = some v ∧ truthy v = true := by
  cases o <;> simp [truthy]

theorem not_mem_of_objLookup_eq_none (o : List (String × JSValue)) (k : String) :
    objLookup o k = none → k ∉ o.map Prod.fst := by
  induction o with
  | nil => intro _; simp
  | cons kv rest ih =>
      obtain ⟨k1, v1⟩ := kv
      intro h
      by_cases h1 : k1 = k
      · simp [objLookup, h1] at h
      · simp only [objLookup, if_neg h1] at h
        rw [List.map_cons, List.mem_cons]
        push_neg
        exact ⟨fun e => h1 e.symm, ih h⟩

/-- C2: the discovery merge is a pure shallow union.  For every existing
category fact mapping (possibly absent, treated as empty) and every new
fact mapping with unique keys, the merge contains every key of the new
facts at the new value, preserves every key present only in the existing
facts at its existing value, and is idempotent under re-application of
the same new facts. -/
theorem discovery_merge_shallow_union
    (existingCategoryFacts : Option (List (String × JSValue)))
    (newFacts : List (String × JSValue))
    (hnd : (newFacts.map Prod.fst).Nodup) :
    (∀ k v, objLookup newFacts k = some v →
      objLookup (mergeFields (existingCategoryFacts.getD []) newFacts) k = some v) ∧
    (∀ k, objLookup newFacts k = none →
      objLookup (mergeFields (existingCategoryFacts.getD []) newFacts) k =
        objLookup (existingCategoryFacts.getD []) k) ∧
    mergeFields (mergeFields (existingCategoryFacts.getD []) newFacts) newFacts =
      mergeFields (existingCategoryFacts.getD []) newFacts := by
  refine ⟨?_, ?_, ?_⟩
  · intro k v h
    exact objLookup_mergeFields_of_lookup newFacts k v hnd h _
  · intro k h
    exact objLookup_mergeFields_of_not_mem _ newFacts k
      (not_mem_of_objLookup_eq_none newFacts k h)
  · exact mergeFields_idem _ newFacts hnd

/-- Witness for C2 at a concrete overlap: base a=1, update a=2, b=3. -/
theorem discovery_merge_shallow_union_witness :
    objLookup (mergeFields ((some [("a", JSValue.jnum 1)] : Option (List (String × JSValue))).getD [])
      [("a", JSValue.jnum 2), ("b", JSValue.jnum 3)]) "a" = some (JSValue.jnum 2) :=
  (discovery_merge_shallow_union (some [("a", JSValue.jnum 1)])
    [("a", JSValue.jnum 2), ("b", JSValue.jnum 3)] (by decide)).1 "a" (JSValue.jnum 2) rfl

/-- C1: the completion-criteria evaluator returns true exactly when the
lowercase utterance contains one of done, complete, finished, next and,
when a criteria configuration is present, the accumulated fact count
reaches minFacts-or-3 and every configured required field is present and
truthy; with no criteria the keyword signal alone decides.  In
particular an utterance lacking all four substrings never completes. -/
theorem completion_evaluator_correct
    (criteria : Option CompletionCriteria) (facts : List (String × JSValue))
    (message : String) :
    (evaluateCompletion criteria (some (JSValue.jobj facts)) message = true ↔
      ((strIncludes (jsToLower message) "done" = true ∨
        strIncludes (jsToLower message) "complete" = true ∨
        strIncludes (jsToLower message) "finished" = true ∨
        strIncludes (jsToLower message) "next" = true) ∧
        (match criteria with
         | some cc =>
             minFactsOrDefault cc.minFacts ≤ ((facts.map Prod.fst).length : Int) ∧
             ∀ f ∈ cc.requiredFields.getD [],
               ∃ v, objLookup facts f = some v ∧ truthy v = true
         | none => True))) ∧
    ((strIncludes (jsToLower message) "done" = false ∧
      strIncludes (jsToLower message) "complete" = false ∧
      strIncludes (jsToLower message) "finished" = false ∧
      strIncludes (jsToLower message) "next" = false) →
      evaluateCompletion criteria (some (JSValue.jobj facts)) message = false) := by
  have hsig : hasCompletionSignal message = true ↔
      (strIncludes (jsToLower message) "done" = true ∨
       strIncludes (jsToLower message) "complete" = true ∨
       strIncludes (jsToLower message) "finished" = true ∨
       strIncludes (jsToLower message) "next" = true) := by
    simp only [hasCompletionSignal, Bool.or_eq_true]
    tauto
  constructor
  · cases criteria with
    | none =>
        simpa [evaluateCompletion] using hsig
    | some cc =>
        simp only [evaluateCompletion, Bool.and_eq_true, decide_eq_true_eq]
        constructor
        · rintro ⟨⟨h1, h2⟩, h3⟩
          refine ⟨hsig.mp h1, ?_, ?_⟩
          · simpa [jsKeys, jsOwnProps] using h2
          · intro f hf
            cases hrf : cc.requiredFields with
            | none =>
                rw [hrf] at hf
                simp at hf
            | some fields =>
                rw [hrf] at h3 hf
                rw [Option.getD_some] at hf
                have := (List.all_eq_true.mp h3) f hf
                rw [truthy_getD_iff] at this
                simpa [jsGet, jsOwnProps] using this
        · rintro ⟨h1, h2, h3⟩
          refine ⟨⟨hsig.mpr h1, ?_⟩, ?_⟩
          · simpa [jsKeys, jsOwnProps] using h2
          · cases hrf : cc.requiredFields with
            | none => rfl
            | some fields =>
                refine List.all_eq_true.mpr ?_
                intro f hf
                rw [truthy_getD_iff]
                have := h3 f (by rw [hrf, Option.getD_some]; exact hf)
                simpa [jsGet, jsOwnProps] using this
  · intro h
    have hs : hasCompletionSignal message = false := by
      simp [hasCompletionSignal, h.1, h.2.1, h.2.2.1, h.2.2.2]
    cases criteria with
    | none => simpa [evaluateCompletion] using hs
    | some cc => simp [evaluateCompletion, hs]

/-- Witness for C1: with no criteria configured, a message containing
the word done completes the category. -/
theorem completion_evaluator_correct_witness :
    evaluateCompletion none (some (JSValue.jobj [])) "we are done" = true :=
  (completion_evaluator_correct none [] "we are done").1.mpr
    ⟨Or.inl (by decide), trivial⟩

/-- Counterexample to C4: with minFacts 0, no required fields and zero
accumulated facts, a plain done signal does not complete the category,
because minFacts of 0 is falsy and the threshold falls back to 3. -/
theorem minFacts_zero_counterexample :
    evaluateCompletion (some { requiredFields := none, minFacts := some 0 })
      (some (JSValue.jobj [])) "done" = false := by
  decide

/-- C4 amended: for a criteria configuration with minFacts 0 and no
required fields, minFacts 0 is treated as unset (JavaScript falsy), so
on a signal-bearing utterance the evaluator returns true exactly when at
least 3 facts are accumulated; the signal alone is not enough. -/
theorem minFacts_zero_defaults_to_three
    (facts : List (String × JSValue)) (message : String)
    (hsig : hasCompletionSignal message = true) :
    (evaluateCompletion (some { requiredFields := none, minFacts := some 0 })
        (some (JSValue.jobj facts)) message = true ↔
      3 ≤ (facts.map Prod.fst).length) := by
  simp only [evaluateCompletion, hsig, minFactsOrDefault, jsKeys, Option.getD_some,
    jsOwnProps, Bool.true_and, Bool.and_true, decide_eq_true_eq, if_true]
  omega

/-- Witness for C4: with three facts accumulated and minFacts 0, a done
message completes the category. -/
theorem minFacts_zero_defaults_to_three_witness :
    evaluateCompletion (some { requiredFields := none, minFacts := some 0 })
      (some (JSValue.jobj
        [("a", JSValue.jnum 1), ("b", JSValue.jnum 2), ("c", JSValue.jnum 3)]))
      "done" = true :=
  (minFacts_zero_defaults_to_three
      [("a", JSValue.jnum 1), ("b", JSValue.jnum 2), ("c", JSValue.jnum 3)]
      "done" (by decide)).mpr (by decide)

/-- C3: gateway fallback.  When the primary deployment call fails with a
message naming a missing deployment and a distinct non-empty fallback is
configured, the gateway calls primary then fallback and returns the
result of the fallback call; on any other error, or without a distinct
configured fallback, it makes exactly one call and propagates the error
unchanged. -/
theorem gateway_fallback_behavior {α : Type}
    (client : String → Except String α) (primary fallback msg : String)
    (hp : primary ≠ "") (herr : client primary = Except.error msg) :
    ((fallback ≠ "" ∧ fallback ≠ primary ∧
        strIncludes (jsToLower msg) "deployment" = true ∧
        strIncludes (jsToLower msg) "does not exist" = true) →
      getChatCompletionsWithFallback client primary fallback =
        (client fallback, [primary, fallback])) ∧
    ((strIncludes (jsToLower msg) "deployment" = false ∨
      strIncludes (jsToLower msg) "does not exist" = false) →
      getChatCompletionsWithFallback client primary fallback =
        (Except.error msg, [primary])) ∧
    ((fallback = "" ∨ fallback = primary) →
      getChatCompletionsWithFallback client primary fallback =
        (Except.error msg, [primary])) := by
  have hcfg : ¬ (primary = "" ∧ fallback = "") := fun hc => hp hc.1
  refine ⟨?_, ?_, ?_⟩
  · rintro ⟨hf, hfp, hd, he⟩
    simp [getChatCompletionsWithFallback, hcfg, hp, herr, hd, he, hf, hfp]
  · rintro (hd | he)
    · simp [getChatCompletionsWithFallback, hcfg, hp, herr, hd]
    · simp [getChatCompletionsWithFallback, hcfg, hp, herr, he]
  · rintro (hf | hfp)
    · simp [getChatCompletionsWithFallback, hcfg, hp, herr, hf]
    · simp [getChatCompletionsWithFallback, hcfg, hp, herr, hfp]

/-- Witness for C3: a client whose primary deployment reports a missing
deployment makes the gateway return the successful result of the fallback
after exactly two calls. -/
theorem gateway_fallback_behavior_witness :
    getChatCompletionsWithFallback
      (fun d => if d = "p" then Except.error "Deployment p does not exist" else Except.ok "ok")
      "p" "f" = (Except.ok "ok", ["p", "f"]) :=
  (gateway_fallback_behavior
      (fun d => if d = "p" then Except.error "Deployment p does not exist" else Except.ok "ok")
      "p" "f" "Deployment p does not exist" (by decide) rfl).1
    ⟨by decide, by decide, by decide, by decide⟩

theorem extractionStep_lookup_ne (env : TurnEnv) (category : String)
    (dd0 : List (String × JSValue)) (c : String) (hc : c ≠ category) :
    objLookup (extractionStep env category dd0).2 c = objLookup dd0 c := by
  rcases he : env.extractionCompletion with e | content
  · simp [extractionStep, he]
  · rcases hp : env.jsonParse content with _ | extracted
    · simp [extractionStep, he, hp]
    · simp only [extractionStep, he, hp]
      split
      · exact objLookup_objInsert_ne dd0 category c _ hc
      · rfl

/-- C5: a turn whose extraction reply is not valid JSON or parses to an
empty object contributes no facts: the persisted discovery data is
unchanged, the turn succeeds with a 200, and the response carries a null
discoveryData. -/
theorem extraction_failure_isolated
    (env : TurnEnv) (req : ChatRequest) (s : StoredSession) (reply content : String)
    (hs : env.sessions req.sessionId = some s)
    (hm : env.mainCompletion = Except.ok reply)
    (he : env.extractionCompletion = Except.ok content)
    (hp : env.jsonParse content = none ∨ env.jsonParse content = some (JSValue.jobj [])) :
    (processTurn env req).status = 200 ∧
    (processTurn env req).discoveryData = none ∧
    (processTurn env req).writes =
      [{ id := s.id,
         messages := some (s.messages.getD [] ++
           [{ role := "user", content := req.message, timestamp := env.tsUser },
            { role := "assistant", content := reply, timestamp := env.tsAssistant }]),
         discoveryData := some (s.discoveryData.getD []) }] := by
  have hex : extractionStep env req.category (s.discoveryData.getD []) =
      (none, s.discoveryData.getD []) := by
    rcases hp with hp | hp <;>
      simp [extractionStep, he, hp, truthy, jsKeys, jsOwnProps]
  refine ⟨?_, ?_, ?_⟩ <;> simp [processTurn, hs, hm, hex]

/-- Witness for C5: a concrete turn whose extraction reply fails to
parse still succeeds and reports null discovery data. -/
theorem extraction_failure_isolated_witness :
    (processTurn parseFailEnv sampleChatRequest).status = 200 ∧
    (processTurn parseFailEnv sampleChatRequest).discoveryData = none :=
  ⟨(extraction_failure_isolated parseFailEnv sampleChatRequest sampleSession
      "assistant reply" "not json" rfl rfl rfl (Or.inl rfl)).1,
   (extraction_failure_isolated parseFailEnv sampleChatRequest sampleSession
      "assistant reply" "not json" rfl rfl rfl (Or.inl rfl)).2.1⟩

/-- C9: the catch around the extraction sub-step swallows every failure
of the extraction completion call itself, not only parse errors: the
turn still succeeds, the two messages are persisted, and the response
carries a null discoveryData. -/
theorem extraction_call_failure_swallowed
    (env : TurnEnv) (req : ChatRequest) (s : StoredSession) (reply err : String)
    (hs : env.sessions req.sessionId = some s)
    (hm : env.mainCompletion = Except.ok reply)
    (he : env.extractionCompletion = Except.error err) :
    (processTurn env req).status = 200 ∧
    (processTurn env req).discoveryData = none ∧
    (processTurn env req).writes =
      [{ id := s.id,
         messages := some (s.messages.getD [] ++
           [{ role := "user", content := req.message, timestamp := env.tsUser },
            { role := "assistant", content := reply, timestamp := env.tsAssistant }]),
         discoveryData := some (s.discoveryData.getD []) }] := by
  have hex : extractionStep env req.category (s.discoveryData.getD []) =
      (none, s.discoveryData.getD []) := by
    simp [extractionStep, he]
  refine ⟨?_, ?_, ?_⟩ <;> simp [processTurn, hs, hm, hex]

/-- Witness for C9: a concrete turn whose extraction completion call
fails with an auth error still succeeds with null discovery data. -/
theorem extraction_call_failure_swallowed_witness :
    (processTurn extractionErrorEnv sampleChatRequest).status = 200 ∧
    (processTurn extractionErrorEnv sampleChatRequest).discoveryData = none :=
  ⟨(extraction_call_failure_swallowed extractionErrorEnv sampleChatRequest sampleSession
      "assistant reply" "auth failure" rfl rfl rfl).1,
   (extraction_call_failure_swallowed extractionErrorEnv sampleChatRequest sampleSession
      "assistant reply" "auth failure" rfl rfl rfl).2.1⟩

/-- C6: a turn that fails at or before the assistant-reply completion
call performs no write, and in every turn the single document replace is
the only write. -/
theorem no_write_before_completion (env : TurnEnv) (req : ChatRequest) :
    (env.sessions req.sessionId = none → (processTurn env req).writes = []) ∧
    (∀ e, env.mainCompletion = Except.error e → (processTurn env req).writes = []) ∧
    (processTurn env req).writes.length ≤ 1 := by
  refine ⟨?_, ?_, ?_⟩
  · intro h
    simp [processTurn, h]
  · intro e h
    cases hs : env.sessions req.sessionId with
    | none => simp [processTurn, hs]
    | some s => simp [processTurn, hs, h]
  · cases hs : env.sessions req.sessionId with
    | none => simp [processTurn, hs]
    | some s =>
        cases hm : env.mainCompletion with
        | error e => simp [processTurn, hs, hm]
        | ok r => simp [processTurn, hs, hm]

/-- Witness for C6: the empty-container turn performs no write. -/
theorem no_write_before_completion_witness :
    (processTurn missingSessionEnv sampleChatRequest).writes = [] :=
  (no_write_before_completion missingSessionEnv sampleChatRequest).1 rfl

/-- Counterexample to C7: a turn whose sessionId names no session is
surfaced as a 500 generic-failure response, not as a client-visible
404-equivalent (although indeed no state is mutated). -/
theorem missing_session_counterexample :
    (processTurn missingSessionEnv sampleChatRequest).status = 500 ∧
    (processTurn missingSessionEnv sampleChatRequest).status ≠ 404 := by
  refine ⟨rfl, ?_⟩
  intro h
  simp [processTurn, missingSessionEnv] at h

/-- C7 amended: a turn whose sessionId names no existing session fails,
surfaced to the caller as a 500 generic-failure response with diagnostic
details (the undefined session resource is dereferenced and the outer
catch answers), and no state is mutated. -/
theorem missing_session_500 (env : TurnEnv) (req : ChatRequest)
    (h : env.sessions req.sessionId = none) :
    (processTurn env req).status = 500 ∧
    (processTurn env req).writes = [] ∧
    (processTurn env req).errorDetails.isSome = true := by
  refine ⟨?_, ?_, ?_⟩ <;> simp [processTurn, h]

/-- Witness for C7 amended, on the empty-container environment. -/
theorem missing_session_500_witness :
    (processTurn missingSessionEnv sampleChatRequest).status = 500 :=
  (missing_session_500 missingSessionEnv sampleChatRequest rfl).1

/-- C8: every successful turn writes exactly one session document whose
id is unchanged, whose messages are the prior messages plus exactly the
timestamped user message and assistant reply, and whose discovery data
differs from the prior data at most at the active category. -/
theorem turn_footprint (env : TurnEnv) (req : ChatRequest) (s : StoredSession)
    (reply : String)
    (hs : env.sessions req.sessionId = some s)
    (hm : env.mainCompletion = Except.ok reply) :
    (processTurn env req).status = 200 ∧
    (processTurn env req).writes =
      [{ id := s.id,
         messages := some (s.messages.getD [] ++
           [{ role := "user", content := req.message, timestamp := env.tsUser },
            { role := "assistant", content := reply, timestamp := env.tsAssistant }]),
         discoveryData := some ((extractionStep env req.category (s.discoveryData.getD [])).2) }] ∧
    (∀ c, c ≠ req.category →
      objLookup (extractionStep env req.category (s.discoveryData.getD [])).2 c =
        objLookup (s.discoveryData.getD []) c) := by
  refine ⟨?_, ?_, ?_⟩
  · simp [processTurn, hs, hm]
  · simp [processTurn, hs, hm]
  · intro c hc
    exact extractionStep_lookup_ne env req.category _ c hc

/-- Witness for C8 on a concrete successful turn. -/
theorem turn_footprint_witness :
    (processTurn happyEnv sampleChatRequest).status = 200 :=
  (turn_footprint happyEnv sampleChatRequest sampleSession "assistant reply" rfl rfl).1

/-- C10: the discovery-update endpoint replaces rather than merges: for
a valid request against an existing session it stores the supplied data
wholesale as the mapping of that category (so keys absent from the supplied
data are dropped), leaves every other category untouched, and echoes the
stored value. -/
theorem discovery_update_replaces (env : UpdateEnv) (req : UpdateRequest)
    (s : StoredSession) (d : JSValue)
    (hek : env.cosmosEndpoint ≠ "") (hkk : env.cosmosKey ≠ "")
    (hsid : req.sessionId ≠ "") (hcat : req.category ≠ "")
    (hd : req.data = some d) (hv : (truthy d && typeofIsObject d) = true)
    (hs : env.sessions req.sessionId = some s) :
    (discoveryUpdate env req).status = 200 ∧
    (discoveryUpdate env req).writes =
      [{ id := s.id, messages := s.messages,
         discoveryData := some (objInsert (s.discoveryData.getD []) req.category d) }] ∧
    objLookup (objInsert (s.discoveryData.getD []) req.category d) req.category = some d ∧
    (∀ c, c ≠ req.category →
      objLookup (objInsert (s.discoveryData.getD []) req.category d) c =
        objLookup (s.discoveryData.getD []) c) ∧
    (discoveryUpdate env req).discoveryData = some d := by
  have hres : discoveryUpdate env req =
      { status := 200,
        discoveryData := objLookup (objInsert (s.discoveryData.getD []) req.category d)
          req.category,
        error := none,
        writes :=
          [{ id := s.id, messages := s.messages,
             discoveryData := some (objInsert (s.discoveryData.getD []) req.category d) }] } := by
    simp [discoveryUpdate, hek, hkk, hsid, hcat, hd, hv, hs]
  refine ⟨?_, ?_, objLookup_objInsert_self _ _ _, ?_, ?_⟩
  · rw [hres]
  · rw [hres]
  · intro c hc
    exact objLookup_objInsert_ne _ req.category c d hc
  · rw [hres]
    simp [objLookup_objInsert_self]

/-- Witness for C10: replacing the infrastructure facts of a session
that already holds an old fact stores exactly the supplied object. -/
theorem discovery_update_replaces_witness :
    (discoveryUpdate updateEnvWithFacts
      { sessionId := "s1", category := "infrastructure",
        data := some (JSValue.jobj [("new_fact", JSValue.jstr "only this")]) }).discoveryData =
      some (JSValue.jobj [("new_fact", JSValue.jstr "only this")]) :=
  (discovery_update_replaces updateEnvWithFacts
      { sessionId := "s1", category := "infrastructure",
        data := some (JSValue.jobj [("new_fact", JSValue.jstr "only this")]) }
      { id := "s1", messages := some [],
        discoveryData := some [("infrastructure",
          JSValue.jobj [("old_fact", JSValue.jstr "kept before")])] }
      (JSValue.jobj [("new_fact", JSValue.jstr "only this")])
      (by decide) (by decide) (by decide) (by decide) rfl rfl rfl).2.2.2.2
